import Mathlib

/-!
Shallow embedding of the branch-aware pipeline construct of this repository
(`packages/pipeline/src/pdk-pipeline.ts`, `packages/pipeline/src/feature-branches.ts`)
and of the sample OpenAPI definition
(`packages/type-safe-api/src/project/model/openapi/open-api-definition.ts`).

Optional TypeScript string properties are modelled as `Option String`; the
JavaScript truthiness test used throughout the source (`!props.x`,
`a || b`) is modelled by `jsTruthy` / `jsOr` (absent and the empty string
are both falsy).  Optional array properties are `Option (List String)`
(an array, even empty, is truthy in JavaScript, so truthiness of an array
property is `Option.isSome`).  CDK resources are modelled as descriptions
of what the constructor provisions.
-/

namespace AwsPdk

/-- JavaScript truthiness of an optional string: absent and the empty string
are falsy, every other string truthy. -/
def jsTruthy : Option String → Bool
  | none => false
  | some s => !(s == "")

/-- JavaScript `a || b` for an optional string `a` and a string fallback `b`. -/
def jsOr (a : Option String) (b : String) : String :=
  match a with
  | none => b
  | some s => if s == "" then b else s

/-- `DEFAULT_BRANCH_NAME` of pdk-pipeline.ts. -/
def DEFAULT_BRANCH_NAME : String := "mainline"

/-- The default branch name the source resolves inside `isDefaultBranch`:
`props.defaultBranchName || (props.node && props.node.tryGetContext("defaultBranchName")) || PDKPipeline.defaultBranchName`.
The context lookup is modelled by the optional string `ctxDefault`. -/
def resolveDefaultBranchName (propsDefault ctxDefault : Option String) : String :=
  jsOr propsDefault (jsOr ctxDefault DEFAULT_BRANCH_NAME)

/-- `PDKPipeline.isDefaultBranch`: returns true when `process.env.BRANCH` is
falsy, otherwise compares the resolved default branch name with the
environment value. -/
def isDefaultBranch (envBranch propsDefault ctxDefault : Option String) : Bool :=
  if !jsTruthy envBranch then
    true
  else
    resolveDefaultBranchName propsDefault ctxDefault == envBranch.getD ""

/-- The character class `[a-zA-Z0-9-]` of the regex in
`PDKPipeline.normalizeBranchName`. -/
def isAllowedBranchChar (c : Char) : Bool :=
  (decide ('a' ≤ c) && decide (c ≤ 'z'))
    || (decide ('A' ≤ c) && decide (c ≤ 'Z'))
    || (decide ('0' ≤ c) && decide (c ≤ '9'))
    || c == '-'

/-- `PDKPipeline.normalizeBranchName`: `branchName.replace(/[^a-zA-Z0-9-]/g, "-")`,
a character-wise replacement of every character outside `[a-zA-Z0-9-]` by `-`. -/
def normalizeBranchName (branchName : String) : String :=
  String.mk (branchName.data.map (fun c => if isAllowedBranchChar c then c else '-'))

/-- `aws-cdk-lib` removal policies (the source uses `RETAIN` and `DESTROY`). -/
inductive RemovalPolicy
  | destroy
  | retain
  | snapshot
  | retainOnUpdateOrDelete
deriving DecidableEq

/-- The construction-time properties of `PDKPipeline` the embedded
constructor reads (`PDKPipelineProps`). -/
structure PDKPipelineProps where
  repositoryName : Option String
  codestarConnectionArn : Option String
  repositoryOwnerAndName : Option String
  defaultBranchName : Option String
  branchNamePrefixes : Option (List String)
  codeCommitRemovalPolicy : Option RemovalPolicy
  cdkCommand : Option String
deriving DecidableEq

/-- What the constructor does about the CodeCommit repository resource:
provision a new one (with the applied removal policy) or look an existing
one up by name. -/
inductive RepoResource
  | created (name : String) (policy : RemovalPolicy)
  | lookedUp (name : String)
deriving DecidableEq

/-- The source binding of the pipeline: `CodePipelineSource.codeCommit` or
`CodePipelineSource.connection`. -/
inductive SourceBinding
  | codeCommit (repositoryName : String) (branch : String)
  | connection (repositoryOwnerAndName : String) (branch : String) (connectionArn : String)
deriving DecidableEq

/-- One CodeBuild `Project` provisioned by `FeatureBranches` for one branch
name prefix, with the commands of its build spec. -/
structure FeatureTrigger where
  projectId : String
  installCommands : List String
  buildCommands : List String
deriving DecidableEq

/-- The `Project` `FeatureBranches` creates for one element of
`branchNamePrefixes`: id `FeaturePipeline-` followed by the prefix, and the
build spec of feature-branches.ts (checkout is implied by the CodeBuild
source; the build phase lists the branch, exports the checked-out branch
name and runs `props.cdkCommand || "npx projen deploy"`). -/
def mkFeatureTrigger (cdkCommand : Option String) (p : String) : FeatureTrigger :=
  { projectId := "FeaturePipeline-" ++ p
  , installCommands := ["npm install -g aws-cdk pnpm", "npx projen install"]
  , buildCommands :=
      [ "git branch -a"
      , "export BRANCH=\"$(git rev-parse --abbrev-ref HEAD)\""
      , jsOr cdkCommand "npx projen deploy" ] }

/-- `FeatureBranches`: `props.branchNamePrefixes.forEach((prefix) => new Project(...))`,
one project per list element in list order. -/
def featureBranchTriggers (cdkCommand : Option String) (branchNamePrefixes : List String) :
    List FeatureTrigger :=
  branchNamePrefixes.map (mkFeatureTrigger cdkCommand)

/-- What one run of the `PDKPipeline` constructor provisions, as far as the
verified claims are concerned. -/
structure ConstructionResult where
  branch : String
  isDefault : Bool
  repoResource : Option RepoResource
  source : SourceBinding
  featureTriggers : List FeatureTrigger
  stackTags : List (String × String)
deriving DecidableEq

/-- The first validation message of the constructor. -/
def errEitherRequired : String :=
  "Either repositoryName or codestarConnectionArn must be provided"

/-- The second validation message of the constructor. -/
def errOwnerRequired : String :=
  "repositoryOwnerAndName is required when using codestarConnectionArn"

/-- The `PDKPipeline` constructor: the two validation checks first (a thrown
`Error` is `Except.error` with its literal message), then the branch
resolution, the repository creation or lookup, the source binding, the
`FeatureBranches` fan-out when `branchNamePrefixes` is provided and the
branch is the default branch, and the stack-level tags otherwise.
`envBranch` is `process.env.BRANCH`, `ctxDefault` the node context value of
`defaultBranchName`. -/
def constructPipeline (props : PDKPipelineProps) (envBranch ctxDefault : Option String) :
    Except String ConstructionResult :=
  if !jsTruthy props.repositoryName && !jsTruthy props.codestarConnectionArn then
    Except.error errEitherRequired
  else if jsTruthy props.codestarConnectionArn && !jsTruthy props.repositoryOwnerAndName then
    Except.error errOwnerRequired
  else
    let branch := jsOr envBranch (jsOr props.defaultBranchName DEFAULT_BRANCH_NAME)
    let isDefault := isDefaultBranch envBranch props.defaultBranchName ctxDefault
    let repoResource : Option RepoResource :=
      if jsTruthy props.repositoryName then
        some (if isDefault then
                RepoResource.created (props.repositoryName.getD "")
                  (props.codeCommitRemovalPolicy.getD RemovalPolicy.retain)
              else
                RepoResource.lookedUp (props.repositoryName.getD ""))
      else
        none
    let source : SourceBinding :=
      if jsTruthy props.repositoryName then
        SourceBinding.codeCommit (props.repositoryName.getD "") branch
      else
        SourceBinding.connection (props.repositoryOwnerAndName.getD "") branch
          (props.codestarConnectionArn.getD "")
    let featureTriggers : List FeatureTrigger :=
      match props.branchNamePrefixes with
      | some ps => if isDefault then featureBranchTriggers props.cdkCommand ps else []
      | none => []
    let stackTags : List (String × String) :=
      match props.branchNamePrefixes with
      | some _ =>
        if isDefault then
          []
        else
          ("FeatureBranch", branch) ::
            (if jsTruthy props.repositoryName then
              [("RepoName", props.repositoryName.getD "")]
            else [])
      | none => []
    Except.ok
      { branch := branch
      , isDefault := isDefault
      , repoResource := repoResource
      , source := source
      , featureTriggers := featureTriggers
      , stackTags := stackTags }

/-- Whether the embedded constructor succeeded. -/
def exceptIsOk : Except String ConstructionResult → Bool
  | Except.ok _ => true
  | Except.error _ => false

/-- The feature triggers a successful construction provisions (none on a
thrown validation error). -/
def constructionFeatureTriggers (props : PDKPipelineProps) (envBranch ctxDefault : Option String) :
    List FeatureTrigger :=
  match constructPipeline props envBranch ctxDefault with
  | Except.ok r => r.featureTriggers
  | Except.error _ => []

/-- The repository resource a successful construction provisions or looks up. -/
def constructionRepoResource (props : PDKPipelineProps) (envBranch ctxDefault : Option String) :
    Option RepoResource :=
  match constructPipeline props envBranch ctxDefault with
  | Except.ok r => r.repoResource
  | Except.error _ => none

/-- The stack-level tags a successful construction adds. -/
def constructionStackTags (props : PDKPipelineProps) (envBranch ctxDefault : Option String) :
    List (String × String) :=
  match constructPipeline props envBranch ctxDefault with
  | Except.ok r => r.stackTags
  | Except.error _ => []

/-- The fields of the pipeline instance that `PDKPipeline.addStage` reads
(stored by the constructor). -/
structure PipelineState where
  branchNamePrefixes : Option (List String)
  defaultBranchName : Option String
  repositoryName : Option String
deriving DecidableEq

/-- The tags `PDKPipeline.addStage` adds to the stage: when
`this.branchNamePrefixes` is set (an array is truthy even when empty) and
the branch is not the default branch, `FeatureBranch` is set to the raw
`process.env.BRANCH` and, when a repository name is configured, `RepoName`
to that name; otherwise no tag is added. -/
def addStageTags (st : PipelineState) (envBranch ctxDefault : Option String) :
    List (String × String) :=
  if st.branchNamePrefixes.isSome
      && !isDefaultBranch envBranch st.defaultBranchName ctxDefault then
    ("FeatureBranch", envBranch.getD "") ::
      (if jsTruthy st.repositoryName then [("RepoName", st.repositoryName.getD "")] else [])
  else
    []

/-- `PDKPipeline.addStage`: adds the branch tags to the stage, then delegates
to `this.codePipeline.addStage(stage, options)` (modelled by the abstract
`delegate`) and returns its result unchanged.  (The aspect propagation the
source also performs does not affect the returned deployment.) -/
def addStage {Stage Opts Deployment : Type} (st : PipelineState)
    (envBranch ctxDefault : Option String)
    (delegate : Stage → Opts → Deployment) (stage : Stage) (options : Opts) :
    List (String × String) × Deployment :=
  (addStageTags st envBranch ctxDefault, delegate stage options)

/-- A query parameter of the sample OpenAPI operation. -/
structure QueryParameter where
  location : String
  name : String
  schemaType : String
  required : Bool
deriving DecidableEq

/-- One response of the sample OpenAPI operation: a status code, a
description and the name of the referenced component schema. -/
structure ResponseContent where
  status : Nat
  description : String
  schemaRef : String
deriving DecidableEq

/-- An object schema of the sample OpenAPI document: named properties with
their types, and the list of required property names. -/
structure ObjectSchema where
  properties : List (String × String)
  required : List String
deriving DecidableEq

/-- The sample OpenAPI operation. -/
structure ApiOperation where
  operationId : String
  handlerLanguage : Option String
  parameters : List QueryParameter
  responses : List ResponseContent
deriving DecidableEq

/-- The sample OpenAPI document. -/
structure SampleOpenApiDoc where
  openapi : String
  version : String
  title : String
  operations : List ApiOperation
  schemas : List (String × ObjectSchema)
deriving DecidableEq

/-- The response body shape shared by all four sample responses:
an object with a single required string field `message`. -/
def messageObjectSchema : ObjectSchema :=
  { properties := [("message", "string")], required := ["message"] }

/-- The sample OpenAPI document `OpenApiDefinition` writes, transcribed from
the YAML template literal of open-api-definition.ts (same operation, same
parameter, same responses in the template's order, same component schemas). -/
def sampleOpenApiDoc (title : String) (firstHandlerLanguage : Option String) :
    SampleOpenApiDoc :=
  { openapi := "3.0.3"
  , version := "1.0.0"
  , title := title
  , operations :=
      [ { operationId := "sayHello"
        , handlerLanguage := firstHandlerLanguage
        , parameters :=
            [ { location := "query", name := "name", schemaType := "string", required := true } ]
        , responses :=
            [ { status := 200, description := "Successful response"
              , schemaRef := "SayHelloResponseContent" }
            , { status := 500, description := "An internal failure at the fault of the server"
              , schemaRef := "InternalFailureErrorResponseContent" }
            , { status := 400
              , description := "An error at the fault of the client sending invalid input"
              , schemaRef := "BadRequestErrorResponseContent" }
            , { status := 403
              , description := "An error due to the client not being authorized to access the resource"
              , schemaRef := "NotAuthorizedErrorResponseContent" } ] } ]
  , schemas :=
      [ ("SayHelloResponseContent", messageObjectSchema)
      , ("InternalFailureErrorResponseContent", messageObjectSchema)
      , ("BadRequestErrorResponseContent", messageObjectSchema)
      , ("NotAuthorizedErrorResponseContent", messageObjectSchema) ] }

/-- Modelled from the spec: projen's `SampleFile` (external to this
repository; open-api-definition.ts only instantiates it) writes the sample
document "once if absent" — when the file already exists it is left
untouched and the call does not fail. -/
def writeSampleFile {α : Type} (existing : Option α) (contents : α) : Option α :=
  match existing with
  | some c => some c
  | none => some contents

/-- The two validation messages differ. -/
theorem errMessages_ne : errEitherRequired ≠ errOwnerRequired := by decide

/-- C1: construction fails with the message
"Either repositoryName or codestarConnectionArn must be provided" exactly
when neither a repository name nor a connection identifier is provided
(a string is provided when it is set and non-empty, following the source's
truthiness checks); it fails with
"repositoryOwnerAndName is required when using codestarConnectionArn"
exactly when a connection identifier is provided without an owner/name
string; both are raised before any resource description is produced (an
error yields no `ConstructionResult` at all), and every other configuration
constructs successfully. -/
theorem constructPipeline_validation (props : PDKPipelineProps)
    (envBranch ctxDefault : Option String) :
    (constructPipeline props envBranch ctxDefault = Except.error errEitherRequired ↔
      jsTruthy props.repositoryName = false ∧ jsTruthy props.codestarConnectionArn = false)
    ∧ (constructPipeline props envBranch ctxDefault = Except.error errOwnerRequired ↔
      jsTruthy props.codestarConnectionArn = true ∧ jsTruthy props.repositoryOwnerAndName = false)
    ∧ exceptIsOk (constructPipeline props envBranch ctxDefault) =
      ((jsTruthy props.repositoryName || jsTruthy props.codestarConnectionArn)
        && (!jsTruthy props.codestarConnectionArn || jsTruthy props.repositoryOwnerAndName)) := by
  cases hr : jsTruthy props.repositoryName <;>
    cases hc : jsTruthy props.codestarConnectionArn <;>
      cases ho : jsTruthy props.repositoryOwnerAndName <;>
        simp [constructPipeline, exceptIsOk, hr, hc, ho, errMessages_ne, errMessages_ne.symm]

/-- C2 counterexample: the claim reads "if the signal is present, it returns
true exactly when the signal equals the configured default name"; for the
present-but-empty signal `some ""` with configured default `"main"` the code
returns true although the signal differs from the default, so the claimed
universal equivalence is false. -/
theorem isDefaultBranch_c2_counterexample :
    ¬ (∀ (envBranch propsDefault ctxDefault : Option String),
        isDefaultBranch envBranch propsDefault ctxDefault =
          match envBranch with
          | none => true
          | some b => resolveDefaultBranchName propsDefault ctxDefault == b) := by
  intro h
  exact absurd (h (some "") (some "main") none) (by decide)

/-- C2 amended: if the environment branch signal is absent or empty, the
branch resolver returns true regardless of the configured default name; if
the signal is present and non-empty, it returns true exactly when the signal
equals the configured default name, falling back to the built-in literal
"mainline" when no default name is configured. -/
theorem isDefaultBranch_characterization (envBranch propsDefault ctxDefault : Option String) :
    isDefaultBranch envBranch propsDefault ctxDefault =
      (match envBranch with
        | none => true
        | some b =>
          if b = "" then true
          else resolveDefaultBranchName propsDefault ctxDefault == b)
    ∧ resolveDefaultBranchName none none = DEFAULT_BRANCH_NAME
    ∧ DEFAULT_BRANCH_NAME = "mainline" := by
  refine ⟨?_, rfl, rfl⟩
  cases envBranch with
  | none => simp [isDefaultBranch, jsTruthy]
  | some b =>
    by_cases hb : b = ""
    · subst hb
      simp [isDefaultBranch, jsTruthy]
    · simp [isDefaultBranch, jsTruthy, hb, Option.getD]

/-- C3: normalization maps the branch name character-wise — every character
outside `[A-Za-z0-9-]` is replaced by `-`, every character inside the class
is kept — so the length is preserved, and in particular
"feature/foo_1" normalizes to "feature-foo-1". -/
theorem normalizeBranchName_spec :
    (∀ s : String, (normalizeBranchName s).data =
      s.data.map (fun c => if isAllowedBranchChar c then c else '-'))
    ∧ (∀ s : String, (normalizeBranchName s).length = s.length)
    ∧ normalizeBranchName "feature/foo_1" = "feature-foo-1" := by
  refine ⟨fun s => rfl, fun s => ?_, by decide⟩
  show (s.data.map _).length = s.data.length
  exact List.length_map s.data _

/-- C4: `addStage` returns the underlying pipeline's stage-attachment result
unchanged; the stage is tagged `FeatureBranch` with the raw (un-normalized)
environment branch string, plus `RepoName` with the configured repository
name when one is configured, exactly when fan-out is enabled
(`branchNamePrefixes` is provided) and the branch is not the default branch;
in every other case no tag is added. -/
theorem addStage_spec {Stage Opts Deployment : Type} (st : PipelineState)
    (envBranch ctxDefault : Option String)
    (delegate : Stage → Opts → Deployment) (stage : Stage) (options : Opts) :
    (addStage st envBranch ctxDefault delegate stage options).2 = delegate stage options
    ∧ (addStage st envBranch ctxDefault delegate stage options).1 =
        (if st.branchNamePrefixes.isSome
            && !isDefaultBranch envBranch st.defaultBranchName ctxDefault then
          ("FeatureBranch", envBranch.getD "") ::
            (if jsTruthy st.repositoryName then
              [("RepoName", st.repositoryName.getD "")]
            else [])
        else [])
    ∧ ((addStage st envBranch ctxDefault delegate stage options).1 ≠ [] ↔
        st.branchNamePrefixes.isSome = true
          ∧ isDefaultBranch envBranch st.defaultBranchName ctxDefault = false) := by
  refine ⟨rfl, rfl, ?_⟩
  cases hp : st.branchNamePrefixes.isSome <;>
    cases hd : isDefaultBranch envBranch st.defaultBranchName ctxDefault <;>
      simp [addStage, addStageTags, hp, hd]

/-- A concrete CodeCommit configuration used by the concrete witnesses. -/
def demoProps : PDKPipelineProps :=
  { repositoryName := some "Demo"
  , codestarConnectionArn := none
  , repositoryOwnerAndName := none
  , defaultBranchName := some "mainline"
  , branchNamePrefixes := some ["feature"]
  , codeCommitRemovalPolicy := none
  , cdkCommand := none }

/-- A concrete configuration whose `branchNamePrefixes` is the empty list. -/
def emptyPrefixProps : PDKPipelineProps :=
  { repositoryName := some "Demo"
  , codestarConnectionArn := none
  , repositoryOwnerAndName := none
  , defaultBranchName := some "mainline"
  , branchNamePrefixes := some []
  , codeCommitRemovalPolicy := none
  , cdkCommand := none }

/-- C5: when a construction provisions a non-empty set of feature triggers,
fan-out was enabled with a non-empty prefix list and the active branch was
the default branch; contrapositively, every other configuration provisions
zero feature triggers. -/
theorem constructionFeatureTriggers_nonempty_only_if (props : PDKPipelineProps)
    (envBranch ctxDefault : Option String)
    (hne : constructionFeatureTriggers props envBranch ctxDefault ≠ []) :
    (∃ ps, props.branchNamePrefixes = some ps ∧ ps ≠ [])
    ∧ isDefaultBranch envBranch props.defaultBranchName ctxDefault = true := by
  by_cases h1 : (!jsTruthy props.repositoryName && !jsTruthy props.codestarConnectionArn) = true
  · simp [constructionFeatureTriggers, constructPipeline, h1] at hne
  · by_cases h2 :
      (jsTruthy props.codestarConnectionArn && !jsTruthy props.repositoryOwnerAndName) = true
    · simp [constructionFeatureTriggers, constructPipeline, h1, h2] at hne
    · cases hps : props.branchNamePrefixes with
      | none => simp [constructionFeatureTriggers, constructPipeline, h1, h2, hps] at hne
      | some ps =>
        cases hd : isDefaultBranch envBranch props.defaultBranchName ctxDefault with
        | false =>
          simp [constructionFeatureTriggers, constructPipeline, h1, h2, hps, hd] at hne
        | true =>
          refine ⟨⟨ps, rfl, ?_⟩, rfl⟩
          intro hnil
          subst hnil
          simp [constructionFeatureTriggers, constructPipeline, h1, h2, hps, hd,
            featureBranchTriggers] at hne

/-- C5 witness: the demo configuration with prefix list ["feature"] and no
environment branch signal provisions a non-empty trigger set, so its prefix
list is provided and non-empty and the branch is the default branch. -/
theorem constructionFeatureTriggers_nonempty_only_if_witness :
    (∃ ps, demoProps.branchNamePrefixes = some ps ∧ ps ≠ [])
    ∧ isDefaultBranch none demoProps.defaultBranchName none = true :=
  constructionFeatureTriggers_nonempty_only_if demoProps none none (by decide)

/-- C6: fan-out provisions exactly one build trigger per element of the
prefix list, in list order, with no deduplication and no sorting: the
trigger list is index-wise the image of the prefix list under
`mkFeatureTrigger`, and a list holding the same prefix twice yields two
triggers without error. -/
theorem featureBranchTriggers_spec :
    (∀ (cdkCommand : Option String) (ps : List String),
      (featureBranchTriggers cdkCommand ps).length = ps.length)
    ∧ (∀ (cdkCommand : Option String) (ps : List String) (i : Nat),
      (featureBranchTriggers cdkCommand ps)[i]? = ps[i]?.map (mkFeatureTrigger cdkCommand))
    ∧ featureBranchTriggers none ["feature", "feature"] =
        [mkFeatureTrigger none "feature", mkFeatureTrigger none "feature"]
    ∧ (featureBranchTriggers none ["feature", "feature"]).length = 2 := by
  refine ⟨fun c ps => List.length_map ps _, fun c ps i => ?_, rfl, rfl⟩
  simp [featureBranchTriggers, List.getElem?_map]

/-- C7: for a construction using a hosted repository reference, the default
branch provisions a new repository resource with the caller-specified
retention policy defaulting to retain-on-teardown, and a non-default branch
looks an existing repository up by name and creates nothing. -/
theorem constructionRepoResource_spec (props : PDKPipelineProps)
    (envBranch ctxDefault : Option String) (name : String)
    (hrepo : props.repositoryName = some name) (hname : ¬ name = "")
    (hvalid : jsTruthy props.codestarConnectionArn = false
      ∨ jsTruthy props.repositoryOwnerAndName = true) :
    constructionRepoResource props envBranch ctxDefault =
      some (if isDefaultBranch envBranch props.defaultBranchName ctxDefault then
              RepoResource.created name (props.codeCommitRemovalPolicy.getD RemovalPolicy.retain)
            else
              RepoResource.lookedUp name) := by
  have ht : jsTruthy (some name) = true := by
    simp [jsTruthy, hname]
  have h2 :
      (jsTruthy props.codestarConnectionArn && !jsTruthy props.repositoryOwnerAndName) = false := by
    rcases hvalid with h | h <;> simp [h]
  simp [constructionRepoResource, constructPipeline, hrepo, ht, h2]

/-- C7 witness: the demo configuration with no environment branch signal is
on the default branch, so its repository resource is provisioned with the
default retain policy. -/
theorem constructionRepoResource_spec_witness :
    constructionRepoResource demoProps none none =
      some (if isDefaultBranch none demoProps.defaultBranchName none then
              RepoResource.created "Demo" (demoProps.codeCommitRemovalPolicy.getD RemovalPolicy.retain)
            else
              RepoResource.lookedUp "Demo") :=
  constructionRepoResource_spec demoProps none none "Demo" rfl (by decide) (Or.inl rfl)

/-- C8: the sample-OpenAPI-file writer is idempotent — a second call with
the same options leaves the already-written file unchanged (and identical
to the first call's output) and does not fail — and the written document
holds exactly one operation, with one required request parameter, and
exactly the four response statuses 200, 400, 403 and 500, each referring to
a component schema that is an object with the single required string field
`message`. -/
theorem sampleOpenApi_writer_spec (title : String) (firstHandlerLanguage : Option String) :
    writeSampleFile (writeSampleFile none (sampleOpenApiDoc title firstHandlerLanguage))
        (sampleOpenApiDoc title firstHandlerLanguage)
      = writeSampleFile none (sampleOpenApiDoc title firstHandlerLanguage)
    ∧ writeSampleFile none (sampleOpenApiDoc title firstHandlerLanguage)
      = some (sampleOpenApiDoc title firstHandlerLanguage)
    ∧ (∀ existing : SampleOpenApiDoc,
        writeSampleFile (some existing) (sampleOpenApiDoc title firstHandlerLanguage)
          = some existing)
    ∧ (sampleOpenApiDoc title firstHandlerLanguage).operations.length = 1
    ∧ (∀ op ∈ (sampleOpenApiDoc title firstHandlerLanguage).operations,
        op.parameters.map (fun p => (p.name, p.location, p.schemaType, p.required))
          = [("name", "query", "string", true)]
        ∧ op.responses.length = 4
        ∧ (op.responses.map ResponseContent.status).Perm [200, 400, 403, 500]
        ∧ ∀ resp ∈ op.responses,
            (sampleOpenApiDoc title firstHandlerLanguage).schemas.lookup resp.schemaRef
              = some messageObjectSchema)
    ∧ messageObjectSchema.properties = [("message", "string")]
    ∧ messageObjectSchema.required = ["message"] := by
  refine ⟨rfl, rfl, fun existing => rfl, rfl, ?_, rfl, rfl⟩
  intro op hop
  simp [sampleOpenApiDoc] at hop
  subst hop
  refine ⟨rfl, rfl, ?_, ?_⟩
  · show ([200, 500, 400, 403] : List Nat).Perm [200, 400, 403, 500]
    decide
  intro resp hresp
  simp at hresp
  rcases hresp with h | h | h | h <;> subst h <;> rfl

/-- C9: an environment branch signal set to the empty string is treated
identically to an absent signal — `isDefaultBranch` returns true whatever
default name is configured, the whole construction is the same as with no
signal, and in particular the demo configuration still creates its
repository and provisions its feature triggers. -/
theorem emptyBranchSignal_selectsDefaultPath :
    (∀ (propsDefault ctxDefault : Option String),
      isDefaultBranch (some "") propsDefault ctxDefault = true)
    ∧ (∀ (props : PDKPipelineProps) (ctxDefault : Option String),
      constructPipeline props (some "") ctxDefault = constructPipeline props none ctxDefault)
    ∧ constructionRepoResource demoProps (some "") none =
        some (RepoResource.created "Demo" RemovalPolicy.retain)
    ∧ constructionFeatureTriggers demoProps (some "") none =
        featureBranchTriggers none ["feature"]
    ∧ constructionStackTags demoProps (some "") none = [] := by
  refine ⟨fun d c => rfl, fun props c => rfl, by decide, by decide, by decide⟩

/-- C10: when `branchNamePrefixes` is provided (an empty list included) and
the active branch is not the default branch, the constructor itself tags
the containing stack with `FeatureBranch` equal to the raw branch string
and, when a repository name is configured, with `RepoName` equal to that
name. -/
theorem constructionStackTags_spec (props : PDKPipelineProps)
    (envBranch ctxDefault : Option String) (ps : List String) (b : String)
    (hps : props.branchNamePrefixes = some ps)
    (henv : envBranch = some b)
    (hnd : isDefaultBranch envBranch props.defaultBranchName ctxDefault = false)
    (hvalid : exceptIsOk (constructPipeline props envBranch ctxDefault) = true) :
    constructionStackTags props envBranch ctxDefault =
      ("FeatureBranch", b) ::
        (if jsTruthy props.repositoryName then
          [("RepoName", props.repositoryName.getD "")]
        else []) := by
  subst henv
  cases hb : jsTruthy (some b) with
  | false => simp [isDefaultBranch, hb] at hnd
  | true =>
    have hbne : (b == "") = false := by
      simpa [jsTruthy] using hb
    by_cases h1 : (!jsTruthy props.repositoryName && !jsTruthy props.codestarConnectionArn) = true
    · simp [constructPipeline, exceptIsOk, h1] at hvalid
    · by_cases h2 :
        (jsTruthy props.codestarConnectionArn && !jsTruthy props.repositoryOwnerAndName) = true
      · simp [constructPipeline, exceptIsOk, h1, h2] at hvalid
      · simp [constructionStackTags, constructPipeline, h1, h2, hps, hnd, jsOr, hbne]

/-- C10 witness: with the empty prefix list and environment branch
"feature/x", the constructor tags the stack with FeatureBranch "feature/x"
and RepoName "Demo". -/
theorem constructionStackTags_spec_witness :
    constructionStackTags emptyPrefixProps (some "feature/x") none =
      ("FeatureBranch", "feature/x") ::
        (if jsTruthy emptyPrefixProps.repositoryName then
          [("RepoName", emptyPrefixProps.repositoryName.getD "")]
        else []) :=
  constructionStackTags_spec emptyPrefixProps (some "feature/x") none [] "feature/x"
    rfl rfl (by decide) (by decide)

end AwsPdk
